import Mathlib

/-!
Verification of the `atar` Terraform lifecycle wrapper.

Shallow embedding of the two source files:
- `src/lib.rs`: `ensure_terraform_installed`, `prepare_work_dir`, `deploy`,
  `undeploy`, and the output-decoding loop inside `deploy`.
- `src/main.rs`: `run_deploy`, the `DestroyGuard` drop implementation, the
  panic hook and the signal listener.

External collaborators (the `terraform` binary, the filesystem, `serde_json`'s
parser) are modelled as inputs: an environment record carries the outcome of
each subprocess invocation and filesystem probe, and the embedded functions
thread an explicit filesystem state and emit a trace of the effects they
perform.  Rust `HashMap`s are modelled as association lists with the keys
unique; `serde_json::Value` is modelled by the inductive `Json` below, with
integer numbers only (no claim exercises floating-point numbers).
-/

set_option autoImplicit false

namespace Atar

/-! ## JSON values (model of `serde_json::Value`) -/

/-- Model of `serde_json::Value`.  Arrays and objects carry their elements in
order; numbers are modelled as integers. -/
inductive Json where
  | null : Json
  | bool : Bool → Json
  | num : Int → Json
  | str : String → Json
  | arr : List Json → Json
  | obj : List (String × Json) → Json

/-- Hexadecimal digit in lowercase, as produced by Rust's lower-hex
formatting. -/
def hexDigit (n : Nat) : Char :=
  if n < 10 then Char.ofNat (48 + n) else Char.ofNat (87 + n)

/-- Escape of one character inside a JSON string literal, following
`serde_json`'s string serializer. -/
def escapeChar (c : Char) : List Char :=
  if c = '"' then ['\\', '"']
  else if c = '\\' then ['\\', '\\']
  else if c = Char.ofNat 8 then ['\\', 'b']
  else if c = Char.ofNat 9 then ['\\', 't']
  else if c = Char.ofNat 10 then ['\\', 'n']
  else if c = Char.ofNat 12 then ['\\', 'f']
  else if c = Char.ofNat 13 then ['\\', 'r']
  else if c.toNat < 32 then
    ['\\', 'u', '0', '0', hexDigit (c.toNat / 16), hexDigit (c.toNat % 16)]
  else [c]

/-- Escape of a whole string body for JSON serialization. -/
def escapeString (s : String) : String :=
  ⟨s.data.foldr (fun c acc => escapeChar c ++ acc) []⟩

/-- Structural JSON text of a value: the model of `Value::to_string()`
(`serde_json`'s compact `Display`). -/
def Json.render : Json → String
  | .null => "null"
  | .bool b => if b then "true" else "false"
  | .num n => toString n
  | .str s => "\"" ++ escapeString s ++ "\""
  | .arr l =>
      "[" ++ String.intercalate "," (l.attach.map (fun x => Json.render x.1)) ++ "]"
  | .obj l =>
      "\x7b" ++
        String.intercalate ","
          (l.attach.map (fun x => "\"" ++ escapeString x.1.1 ++ "\":" ++ Json.render x.1.2)) ++
      "\x7d"
decreasing_by
  · have := List.sizeOf_lt_of_mem x.2
    simp only [Json.arr.sizeOf_spec]
    omega
  · have h1 := List.sizeOf_lt_of_mem x.2
    have h2 : sizeOf x.1.2 < sizeOf x.1 := by
      rcases x.1 with ⟨a, b⟩
      simp only [Prod.mk.sizeOf_spec]
      omega
    simp only [Json.obj.sizeOf_spec]
    omega

/-- Test of `Value::is_string()`. -/
def Json.isString : Json → Bool
  | .str _ => true
  | _ => false

/-- Model of `Value::as_str()`: `some` exactly on strings. -/
def Json.asStr : Json → Option String
  | .str s => some s
  | _ => none

/-- Association-list lookup modelling `serde_json::Map` key lookup. -/
def lookupKey : List (String × Json) → String → Option Json
  | [], _ => none
  | (k, v) :: rest, key => if k = key then some v else lookupKey rest key

/-- Model of `Value::get(key)`: a lookup on objects, `none` on every other
variant. -/
def jsonGet : Json → String → Option Json
  | .obj l, key => lookupKey l key
  | _, _ => none

/-- Stringification of one wrapped output value, from the body of the decode
loop in `deploy` (`src/lib.rs` lines 130-134): the string itself when the
value is a JSON string, its structural JSON text otherwise. -/
def stringify (inner : Json) : String :=
  if inner.isString then (Json.asStr inner).getD "" else inner.render

/-- Stringification with the panic of `as_str().unwrap()` made explicit:
`none` models the panic that would occur if `as_str()` returned `None`
under the `is_string()` guard. -/
def stringifyChecked (inner : Json) : Option String :=
  if inner.isString then Json.asStr inner else some inner.render

/-- Decode loop of `deploy` (`src/lib.rs` lines 127-137): entries whose
wrapper carries a `value` field are kept, stringified; the rest are
dropped. -/
def decodeOutputs (raw : List (String × Json)) : List (String × String) :=
  raw.filterMap (fun kv => (jsonGet kv.2 "value").map (fun inner => (kv.1, stringify inner)))

/-- Decode loop with panics made explicit via `Option`: the run of the loop
aborts (`none`) if the `unwrap` in any iteration would panic. -/
def decodeOutputsChecked : List (String × Json) → Option (List (String × String))
  | [] => some []
  | kv :: rest =>
      match jsonGet kv.2 "value" with
      | none => decodeOutputsChecked rest
      | some inner =>
          match stringifyChecked inner with
          | none => none
          | some s => (decodeOutputsChecked rest).map (fun r => (kv.1, s) :: r)

/-- Errors of the embedded operations, mirroring the `bail!`/`context` sites
of the source. -/
inductive TfError where
  | probeLaunch : TfError
  | notInstalled : TfError
  | canonicalizeFailed : TfError
  | noParent : TfError
  | copyFailed : TfError
  | initLaunch : TfError
  | initFailed : TfError
  | applyLaunch : TfError
  | applyFailed : TfError
  | outputLaunch : TfError
  | outputFailed : TfError
  | outputDecode : TfError
  | destroyLaunch : TfError
  | destroyFailed : TfError
deriving DecidableEq, Repr

/-- Result of the `serde_json::from_slice` + decode-loop phase of `deploy`:
the parse result is an input (the parser is external), the loop is the
code's. -/
def decodeRaw (parsed : Option (List (String × Json))) :
    Except TfError (List (String × String)) :=
  match parsed with
  | none => .error .outputDecode
  | some raw => .ok (decodeOutputs raw)

theorem stringifyChecked_eq (inner : Json) :
    stringifyChecked inner = some (stringify inner) := by
  cases inner <;> simp [stringifyChecked, stringify, Json.isString, Json.asStr]

/-! ## SHA-256 (model of the `sha2` crate's `Sha256`, used by
`prepare_work_dir`) -/

/-- Modulus of 32-bit arithmetic. -/
def M32 : Nat := 4294967296

/-- Right rotation of a 32-bit word. -/
def rotr32 (n x : Nat) : Nat := ((x >>> n) ||| (x <<< (32 - n))) % M32

/-- Message-schedule sigma-0. -/
def sigma0 (x : Nat) : Nat := rotr32 7 x ^^^ rotr32 18 x ^^^ (x >>> 3)

/-- Message-schedule sigma-1. -/
def sigma1 (x : Nat) : Nat := rotr32 17 x ^^^ rotr32 19 x ^^^ (x >>> 10)

/-- Compression Sigma-0. -/
def bigSigma0 (x : Nat) : Nat := rotr32 2 x ^^^ rotr32 13 x ^^^ rotr32 22 x

/-- Compression Sigma-1. -/
def bigSigma1 (x : Nat) : Nat := rotr32 6 x ^^^ rotr32 11 x ^^^ rotr32 25 x

/-- Choice function of the compression round. -/
def chFn (e f g : Nat) : Nat := (e &&& f) ^^^ ((e ^^^ (M32 - 1)) &&& g)

/-- Majority function of the compression round. -/
def majFn (a b c : Nat) : Nat := (a &&& b) ^^^ (a &&& c) ^^^ (b &&& c)

/-- Round constants of SHA-256, in decimal. -/
def roundK : List Nat :=
  [1116352408, 1899447441, 3049323471, 3921009573, 961987163,
   1508970993, 2453635748, 2870763221, 3624381080, 310598401,
   607225278, 1426881987, 1925078388, 2162078206, 2614888103,
   3248222580, 3835390401, 4022224774, 264347078, 604807628,
   770255983, 1249150122, 1555081692, 1996064986, 2554220882,
   2821834349, 2952996808, 3210313671, 3336571891, 3584528711,
   113926993, 338241895, 666307205, 773529912, 1294757372,
   1396182291, 1695183700, 1986661051, 2177026350, 2456956037,
   2730485921, 2820302411, 3259730800, 3345764771, 3516065817,
   3600352804, 4094571909, 275423344, 430227734, 506948616,
   659060556, 883997877, 958139571, 1322822218, 1537002063,
   1747873779, 1955562222, 2024104815, 2227730452, 2361852424,
   2428436474, 2756734187, 3204031479, 3329325298]

/-- Big-endian bytes of a 64-bit length field. -/
def beBytes8 (n : Nat) : List Nat :=
  [n / 2 ^ 56 % 256, n / 2 ^ 48 % 256, n / 2 ^ 40 % 256, n / 2 ^ 32 % 256,
   n / 2 ^ 24 % 256, n / 2 ^ 16 % 256, n / 2 ^ 8 % 256, n % 256]

/-- Big-endian bytes of a 32-bit word. -/
def wordBE (w : Nat) : List Nat :=
  [w / 2 ^ 24 % 256, w / 2 ^ 16 % 256, w / 2 ^ 8 % 256, w % 256]

/-- Padding of a byte message to a multiple of 64 bytes: a `0x80` byte, zero
bytes up to 56 mod 64, then the bit length in 8 big-endian bytes. -/
def padMessage (msg : List Nat) : List Nat :=
  msg ++ [0x80] ++ List.replicate ((119 - msg.length % 64) % 64) 0 ++
    beBytes8 (msg.length * 8)

/-- Grouping of a byte list into big-endian 32-bit words. -/
def bytesToWords : List Nat → List Nat
  | b0 :: b1 :: b2 :: b3 :: rest =>
      (b0 * 2 ^ 24 + b1 * 2 ^ 16 + b2 * 2 ^ 8 + b3) :: bytesToWords rest
  | _ => []

/-- Extension of the 16 block words to the 64-entry message schedule. -/
def extendW (w : Array Nat) : Array Nat :=
  (List.range 48).foldl
    (fun w _ =>
      let n := w.size
      w.push ((sigma1 (w.getD (n - 2) 0) + w.getD (n - 7) 0 +
        sigma0 (w.getD (n - 15) 0) + w.getD (n - 16) 0) % M32))
    w

/-- Working state of the SHA-256 compression function. -/
structure Digest8 where
  a : Nat
  b : Nat
  c : Nat
  d : Nat
  e : Nat
  f : Nat
  g : Nat
  h : Nat
deriving DecidableEq, Repr

/-- One compression round, consuming one (constant, schedule-word) pair. -/
def roundStep (s : Digest8) (kw : Nat × Nat) : Digest8 :=
  let t1 := (s.h + bigSigma1 s.e + chFn s.e s.f s.g + kw.1 + kw.2) % M32
  let t2 := (bigSigma0 s.a + majFn s.a s.b s.c) % M32
  ⟨(t1 + t2) % M32, s.a, s.b, s.c, (s.d + t1) % M32, s.e, s.f, s.g⟩

/-- Initial hash state of SHA-256, in decimal. -/
def digestInit : Digest8 :=
  ⟨1779033703, 3144134277, 1013904242, 2773480762,
   1359893119, 2600822924, 528734635, 1541459225⟩

/-- Compression of one 64-byte block into the running state. -/
def compressBlock (st : Digest8) (block : List Nat) : Digest8 :=
  let w := extendW (Array.mk (bytesToWords block))
  let s := (roundK.zip w.toList).foldl roundStep st
  ⟨(st.a + s.a) % M32, (st.b + s.b) % M32, (st.c + s.c) % M32,
   (st.d + s.d) % M32, (st.e + s.e) % M32, (st.f + s.f) % M32,
   (st.g + s.g) % M32, (st.h + s.h) % M32⟩

/-- Fuel-driven chunking of a byte list into 64-byte blocks. -/
def chunksAux : Nat → List Nat → List (List Nat)
  | 0, _ => []
  | _, [] => []
  | fuel + 1, l => l.take 64 :: chunksAux fuel (l.drop 64)

/-- Chunking of a padded message into its 64-byte blocks. -/
def chunk64 (l : List Nat) : List (List Nat) := chunksAux l.length l

/-- Big-endian byte serialization of a final hash state. -/
def digestBytes (d : Digest8) : List Nat :=
  [d.a, d.b, d.c, d.d, d.e, d.f, d.g, d.h].foldr (fun w acc => wordBE w ++ acc) []

/-- SHA-256 digest of a byte message, as 32 bytes. -/
def sha256 (msg : List Nat) : List Nat :=
  digestBytes ((chunk64 (padMessage msg)).foldl compressBlock digestInit)

/-- Lowercase-hex pair of one byte, as Rust's lower-hex formatting emits it. -/
def byteHex (b : Nat) : List Char := [hexDigit (b / 16), hexDigit (b % 16)]

/-- Lowercase-hex string of a byte list: the model of formatting a digest
with the lower-hex format specifier. -/
def hexOfBytes (bs : List Nat) : String :=
  ⟨bs.foldr (fun b acc => byteHex b ++ acc) []⟩

/-- UTF-8 bytes of one character. -/
def charUtf8 (c : Char) : List Nat :=
  let n := c.toNat
  if n < 0x80 then [n]
  else if n < 0x800 then [0xc0 + n / 64, 0x80 + n % 64]
  else if n < 0x10000 then
    [0xe0 + n / 4096, 0x80 + n / 64 % 64, 0x80 + n % 64]
  else
    [0xf0 + n / 262144, 0x80 + n / 4096 % 64, 0x80 + n / 64 % 64, 0x80 + n % 64]

/-- UTF-8 bytes of a string: the model of `to_string_lossy().as_bytes()` on a
path that is valid unicode. -/
def strBytes (s : String) : List Nat :=
  s.data.foldr (fun c acc => charUtf8 c ++ acc) []

/-! ## Workspace paths (model of `prepare_work_dir`, `src/lib.rs` 49-59) -/

/-- Model of `PathBuf::join` for a relative component: appends with a `/`
separator (an absolute right side replaces the left one). -/
def pathJoin (p q : String) : String :=
  if q.startsWith "/" then q
  else if p.endsWith "/" then p ++ q
  else p ++ "/" ++ q

/-- Working-directory path computed by `prepare_work_dir`: the temp root
joined with `atar` joined with the lower-hex SHA-256 of the source directory
path's bytes (`src/lib.rs` lines 50-53). -/
def workPath (tmpRoot srcDir : String) : String :=
  pathJoin (pathJoin tmpRoot "atar") (hexOfBytes (sha256 (strBytes srcDir)))

/-- Tool namespace component named by the spec. -/
def toolNamespace : String := "atar"

/-- Specification-side definition for the refinement claim about the
working-directory location, following the spec's words: "system temp root
joined with the tool namespace joined with the lowercase hex encoding of the
SHA-256 hash of the canonicalized source directory path" (spec section 6). -/
def specWorkDirLocation (tempRoot canonicalSrc : String) : String :=
  pathJoin (pathJoin tempRoot toolNamespace)
    (hexOfBytes (sha256 (strBytes canonicalSrc)))

example : hexOfBytes (sha256 []) =
    "e3b0c44298fc1c149afbf4c8996fb92427ae41e4649b934ca495991b7852b855" := by rfl

example : hexOfBytes (sha256 (strBytes "abc")) =
    "ba7816bf8f01cfea414140de5dae2223b00361a396177a9cb410ff61f20015ad" := by rfl

/-! ## Lifecycle model

The observable effects of `deploy`, `undeploy` (`src/lib.rs`) and
`run_deploy` (`src/main.rs`) are modelled as a trace of events over an
explicit filesystem state; the outcome of each external interaction
(subprocess exit, path resolution, copy) is supplied by a `ToolEnv`
record. -/

/-- Observable effects of one operation, in order of occurrence. -/
inductive Ev where
  | probe : Ev
  | canon : Ev
  | copy : Ev
  | init : Ev
  | apply : Ev
  | output : Ev
  | destroy : Ev
deriving DecidableEq, Repr

/-- Filesystem state: the temp root and the set of existing working
directories.  The program only ever adds directories. -/
structure FS where
  tmpRoot : String
  dirs : List String
deriving DecidableEq, Repr

/-- Outcomes of the external interactions: for each subprocess, `none` means
the binary failed to launch and `some b` that it exited with success flag
`b`; `canonical`/`parent` model `Path::canonicalize` and `Path::parent`;
`copyOk` models whether `copy_dir_recursive` succeeds and
`copyPartialCreates` whether a failed copy still left the target directory
behind; `outputJson` models the `serde_json::from_slice` parse of the
captured stdout. -/
structure ToolEnv where
  probe : Option Bool
  canonical : String → Option String
  parent : String → Option String
  copyOk : Bool
  copyPartialCreates : Bool
  initRes : Option Bool
  applyRes : Option Bool
  outputRes : Option Bool
  outputJson : Option (List (String × Json))
  destroyRes : Option Bool

/-- Model of `ensure_terraform_installed` (`src/lib.rs` 18-29): the version
probe with both streams suppressed, failing on launch error or nonzero
exit.  Running it always emits exactly the `probe` event, recorded at its
call sites. -/
def ensureTerraformInstalled (env : ToolEnv) : Except TfError Unit :=
  match env.probe with
  | none => .error .probeLaunch
  | some false => .error .notInstalled
  | some true => .ok ()

/-- Result of a workspace preparation step. -/
structure PrepOut where
  result : Except TfError String
  fs : FS
  trace : List Ev
deriving Repr

/-- Model of `prepare_work_dir` (`src/lib.rs` 49-59): deterministic work
directory from the hash of the source path; the copy runs only when the
directory does not exist yet. -/
def prepareWorkDir (env : ToolEnv) (srcDir : String) (fs : FS) : PrepOut :=
  if workPath fs.tmpRoot srcDir ∈ fs.dirs then
    ⟨.ok (workPath fs.tmpRoot srcDir), fs, []⟩
  else if env.copyOk then
    ⟨.ok (workPath fs.tmpRoot srcDir),
      ⟨fs.tmpRoot, workPath fs.tmpRoot srcDir :: fs.dirs⟩, [.copy]⟩
  else
    ⟨.error .copyFailed,
      if env.copyPartialCreates then
        ⟨fs.tmpRoot, workPath fs.tmpRoot srcDir :: fs.dirs⟩
      else fs,
      [.copy]⟩

/-- Result of the library `deploy`. -/
structure DeployOut where
  result : Except TfError (List (String × String))
  fs : FS
  trace : List Ev

/-- Phase of `deploy` after workspace preparation (`src/lib.rs` 79-139):
`init`, `apply`, `output -json` and the decode loop, each aborting the
sequence on failure. -/
def deployAfterPrep (env : ToolEnv) (p : PrepOut) : DeployOut :=
  match p.result with
  | .error e => ⟨.error e, p.fs, [.probe, .canon] ++ p.trace⟩
  | .ok _work =>
    match env.initRes with
    | none =>
        ⟨.error .initLaunch, p.fs, [.probe, .canon] ++ p.trace ++ [.init]⟩
    | some false =>
        ⟨.error .initFailed, p.fs, [.probe, .canon] ++ p.trace ++ [.init]⟩
    | some true =>
      match env.applyRes with
      | none =>
          ⟨.error .applyLaunch, p.fs,
            [.probe, .canon] ++ p.trace ++ [.init, .apply]⟩
      | some false =>
          ⟨.error .applyFailed, p.fs,
            [.probe, .canon] ++ p.trace ++ [.init, .apply]⟩
      | some true =>
        match env.outputRes with
        | none =>
            ⟨.error .outputLaunch, p.fs,
              [.probe, .canon] ++ p.trace ++ [.init, .apply, .output]⟩
        | some false =>
            ⟨.error .outputFailed, p.fs,
              [.probe, .canon] ++ p.trace ++ [.init, .apply, .output]⟩
        | some true =>
            match decodeRaw env.outputJson with
            | .error e =>
                ⟨.error e, p.fs,
                  [.probe, .canon] ++ p.trace ++ [.init, .apply, .output]⟩
            | .ok outs =>
                ⟨.ok outs, p.fs,
                  [.probe, .canon] ++ p.trace ++ [.init, .apply, .output]⟩

/-- Model of `deploy` (`src/lib.rs` 64-139): probe, canonicalize, take the
parent directory, prepare the workspace, then the subcommand sequence of
`deployAfterPrep`. -/
def deploy (env : ToolEnv) (file : String) (fs : FS) : DeployOut :=
  match ensureTerraformInstalled env with
  | .error e => ⟨.error e, fs, [.probe]⟩
  | .ok _ =>
    match env.canonical file with
    | none => ⟨.error .canonicalizeFailed, fs, [.probe, .canon]⟩
    | some cfile =>
      match env.parent cfile with
      | none => ⟨.error .noParent, fs, [.probe, .canon]⟩
      | some srcDir => deployAfterPrep env (prepareWorkDir env srcDir fs)

/-- Result of the library `undeploy`. -/
structure UndeployOut where
  result : Except TfError Unit
  fs : FS
  trace : List Ev

/-- Phase of `undeploy` after workspace preparation (`src/lib.rs` 157-174):
one `destroy` invocation. -/
def undeployAfterPrep (env : ToolEnv) (p : PrepOut) : UndeployOut :=
  match p.result with
  | .error e => ⟨.error e, p.fs, [.probe, .canon] ++ p.trace⟩
  | .ok _work =>
    match env.destroyRes with
    | none =>
        ⟨.error .destroyLaunch, p.fs,
          [.probe, .canon] ++ p.trace ++ [.destroy]⟩
    | some false =>
        ⟨.error .destroyFailed, p.fs,
          [.probe, .canon] ++ p.trace ++ [.destroy]⟩
    | some true =>
        ⟨.ok (), p.fs, [.probe, .canon] ++ p.trace ++ [.destroy]⟩

/-- Model of `undeploy` (`src/lib.rs` 142-175): probe, canonicalize, parent,
prepare the workspace, then one `destroy` invocation. -/
def undeploy (env : ToolEnv) (file : String) (fs : FS) : UndeployOut :=
  match ensureTerraformInstalled env with
  | .error e => ⟨.error e, fs, [.probe]⟩
  | .ok _ =>
    match env.canonical file with
    | none => ⟨.error .canonicalizeFailed, fs, [.probe, .canon]⟩
    | some cfile =>
      match env.parent cfile with
      | none => ⟨.error .noParent, fs, [.probe, .canon]⟩
      | some srcDir => undeployAfterPrep env (prepareWorkDir env srcDir fs)

/-- Post-deploy execution paths of `run_deploy` (`src/main.rs` 158-192),
after the `DestroyGuard` and the panic hook have been installed:
`signalThenDrop` is the normal path (a termination signal wakes `recv`, then
`drop(guard)` runs one `undeploy`); `panicUnwind` is a panic raised in the
main thread after arming (for example the post-`recv` `println!` panicking on
a closed stdout after a signal was received): the panic hook runs one
`undeploy`, then the unwinding drop of the guard runs another. -/
inductive PostDeploy where
  | signalThenDrop : PostDeploy
  | panicUnwind : PostDeploy
deriving DecidableEq, Repr

/-- Outcome of one `run_deploy` execution.  `result = none` models a process
terminated by the panic; `armed` records whether the `DestroyGuard` and
panic hook were installed at all. -/
structure RunOut where
  result : Option (Except TfError Unit)
  armed : Bool
  fs : FS
  trace : List Ev

/-- Model of `run_deploy` (`src/main.rs` 137-193): the library `deploy`
first — on error the `?` operator returns before the guard or the panic
hook exist; on success the guard and hook are armed and the chosen
post-deploy path runs.  `uHook` and `uDrop` are the environments seen by the
panic hook's `undeploy` and the guard drop's `undeploy`. -/
def runDeploy (env uHook uDrop : ToolEnv) (file : String) (fs : FS)
    (post : PostDeploy) : RunOut :=
  match deploy env file fs with
  | ⟨.error e, dfs, dt⟩ => ⟨some (.error e), false, dfs, dt⟩
  | ⟨.ok _outs, dfs, dt⟩ =>
    match post with
    | .signalThenDrop =>
        ⟨some (.ok ()), true, (undeploy uDrop file dfs).fs,
          dt ++ (undeploy uDrop file dfs).trace⟩
    | .panicUnwind =>
        ⟨none, true,
          (undeploy uDrop file (undeploy uHook file dfs).fs).fs,
          dt ++ (undeploy uHook file dfs).trace ++
            (undeploy uDrop file (undeploy uHook file dfs).fs).trace⟩

/-- Number of `destroy` subprocess invocations in a trace. -/
def countDestroy (t : List Ev) : Nat := t.count .destroy

/-! ## Stream configuration (claims about the invoker's stdio policy) -/

/-- Dispositions a child process stream can have. -/
inductive StreamMode where
  | inherit : StreamMode
  | nullDev : StreamMode
  | piped : StreamMode
deriving DecidableEq, Repr

/-- Stdio configuration of one subprocess invocation. -/
structure StreamCfg where
  out : StreamMode
  err : StreamMode
deriving DecidableEq, Repr

/-- Stream configuration of the status-style invocations (`init`, `apply`,
`destroy`; `src/lib.rs` 84-86, 101-103, 164-166): both streams null when the
debug flag is off, inherited when it is on (`Command::status` inherits
unconfigured streams). -/
def statusInvocationCfg (debug : Bool) : StreamCfg :=
  if debug then ⟨.inherit, .inherit⟩ else ⟨.nullDev, .nullDev⟩

/-- Stream configuration of the capturing invocation `output -json`
(`src/lib.rs` 113-118): the code configures neither stream and calls
`Command::output`, which pipes both of them, whatever the debug flag. -/
def outputInvocationCfg (_debug : Bool) : StreamCfg := ⟨.piped, .piped⟩

/-- Specification-side stderr policy for the refinement claim: suppressed
when non-verbose, inherited when verbose. -/
def specStderrPolicy (debug : Bool) : StreamMode :=
  if debug then .inherit else .nullDev

/-! ## Concrete environments used by witnesses and counterexamples -/

/-- Environment in which every external interaction succeeds and the output
payload is the empty JSON object. -/
def okEnv : ToolEnv where
  probe := some true
  canonical := fun _ => some "/cfg/main.tf"
  parent := fun _ => some "/cfg"
  copyOk := true
  copyPartialCreates := false
  initRes := some true
  applyRes := some true
  outputRes := some true
  outputJson := some []
  destroyRes := some true

/-- Fresh filesystem under `/tmp` with no working directory yet. -/
def fs0 : FS := ⟨"/tmp", []⟩

/-- Environment identical to `okEnv` except that the captured `output -json`
stdout fails to parse. -/
def badJsonEnv : ToolEnv := { okEnv with outputJson := none }

/-- Environment identical to `okEnv` except that `terraform apply` exits
with a nonzero status. -/
def applyFailEnv : ToolEnv := { okEnv with applyRes := some false }

/-- Environment identical to `okEnv` except that `terraform init` exits with
a nonzero status. -/
def initFailEnv : ToolEnv := { okEnv with initRes := some false }

/-- Environment identical to `okEnv` except that the version probe fails to
launch. -/
def probeFailEnv : ToolEnv := { okEnv with probe := none }

/-! ## Helper lemmas -/

theorem countDestroy_append (s t : List Ev) :
    countDestroy (s ++ t) = countDestroy s + countDestroy t :=
  List.count_append ..

theorem prepareWorkDir_trace_cases (env : ToolEnv) (srcDir : String) (fs : FS) :
    (prepareWorkDir env srcDir fs).trace = [] ∨
    (prepareWorkDir env srcDir fs).trace = [Ev.copy] := by
  unfold prepareWorkDir
  split
  · exact Or.inl rfl
  · split
    · exact Or.inr rfl
    · exact Or.inr rfl

theorem prepareWorkDir_dirs_mono (env : ToolEnv) (srcDir : String) (fs : FS) :
    fs.dirs ⊆ (prepareWorkDir env srcDir fs).fs.dirs := by
  unfold prepareWorkDir
  split
  · exact fun a ha => ha
  · split
    · exact fun a ha => List.mem_cons_of_mem _ ha
    · split
      · exact fun a ha => List.mem_cons_of_mem _ ha
      · exact fun a ha => ha

theorem prepareWorkDir_tmpRoot (env : ToolEnv) (srcDir : String) (fs : FS) :
    (prepareWorkDir env srcDir fs).fs.tmpRoot = fs.tmpRoot := by
  unfold prepareWorkDir
  split
  · rfl
  · split
    · rfl
    · split <;> rfl

theorem prepareWorkDir_ok_mem (env : ToolEnv) (srcDir : String) (fs : FS)
    (w : String) (h : (prepareWorkDir env srcDir fs).result = .ok w) :
    w = workPath fs.tmpRoot srcDir ∧
      workPath fs.tmpRoot srcDir ∈ (prepareWorkDir env srcDir fs).fs.dirs := by
  unfold prepareWorkDir at h ⊢
  by_cases hmem : workPath fs.tmpRoot srcDir ∈ fs.dirs
  · simp only [if_pos hmem] at h ⊢
    simp only [Except.ok.injEq] at h
    exact ⟨h.symm, hmem⟩
  · simp only [if_neg hmem] at h ⊢
    by_cases hcopy : env.copyOk = true
    · simp only [if_pos hcopy] at h ⊢
      simp only [Except.ok.injEq] at h
      exact ⟨h.symm, by simp⟩
    · simp only [if_neg hcopy] at h
      exact absurd h (by simp)

theorem prepareWorkDir_count_copy (env : ToolEnv) (srcDir : String) (fs : FS) :
    (prepareWorkDir env srcDir fs).trace.count Ev.copy ≤ 1 := by
  rcases prepareWorkDir_trace_cases env srcDir fs with ht | ht <;> simp [ht]

theorem deployAfterPrep_no_destroy (env : ToolEnv) (p : PrepOut)
    (hp : p.trace.count Ev.destroy = 0) :
    countDestroy (deployAfterPrep env p).trace = 0 := by
  unfold deployAfterPrep
  repeat' split
  all_goals simp [countDestroy, List.count_append, hp]

theorem deploy_no_destroy (env : ToolEnv) (file : String) (fs : FS) :
    countDestroy (deploy env file fs).trace = 0 := by
  have hprep : ∀ s, List.count Ev.destroy (prepareWorkDir env s fs).trace = 0 := by
    intro s
    rcases prepareWorkDir_trace_cases env s fs with ht | ht <;> simp [ht]
  unfold deploy
  split
  · rfl
  · split
    · rfl
    · split
      · rfl
      · exact deployAfterPrep_no_destroy env _ (hprep _)

theorem prepareWorkDir_mem_eq (env : ToolEnv) (srcDir : String) (fs : FS)
    (h : workPath fs.tmpRoot srcDir ∈ fs.dirs) :
    prepareWorkDir env srcDir fs = ⟨.ok (workPath fs.tmpRoot srcDir), fs, []⟩ := by
  unfold prepareWorkDir
  rw [if_pos h]

theorem deployAfterPrep_apply_false (env : ToolEnv) (p : PrepOut)
    (h : env.applyRes = some false) :
    (deployAfterPrep env p).result.isOk = false := by
  unfold deployAfterPrep
  repeat' split
  all_goals simp_all [Except.isOk, Except.toBool]

theorem deploy_apply_false (env : ToolEnv) (file : String) (fs : FS)
    (h : env.applyRes = some false) :
    (deploy env file fs).result.isOk = false := by
  unfold deploy
  split
  · rfl
  · split
    · rfl
    · split
      · rfl
      · exact deployAfterPrep_apply_false env _ h

theorem deployAfterPrep_init_false (env : ToolEnv) (p : PrepOut)
    (h : env.initRes = some false)
    (hpt : p.trace = [] ∨ p.trace = [Ev.copy]) :
    (deployAfterPrep env p).result.isOk = false ∧
    Ev.apply ∉ (deployAfterPrep env p).trace ∧
    Ev.output ∉ (deployAfterPrep env p).trace ∧
    Ev.destroy ∉ (deployAfterPrep env p).trace := by
  unfold deployAfterPrep
  rcases hpt with ht | ht
  · split
    · simp [Except.isOk, Except.toBool, ht]
    · rw [h]
      simp [Except.isOk, Except.toBool, ht]
  · split
    · simp [Except.isOk, Except.toBool, ht]
    · rw [h]
      simp [Except.isOk, Except.toBool, ht]

theorem deploy_init_false (env : ToolEnv) (file : String) (fs : FS)
    (h : env.initRes = some false) :
    (deploy env file fs).result.isOk = false ∧
    Ev.apply ∉ (deploy env file fs).trace ∧
    Ev.output ∉ (deploy env file fs).trace ∧
    Ev.destroy ∉ (deploy env file fs).trace := by
  unfold deploy
  split
  · simp [Except.isOk, Except.toBool]
  · split
    · simp [Except.isOk, Except.toBool]
    · split
      · simp [Except.isOk, Except.toBool]
      · exact deployAfterPrep_init_false env _ h (prepareWorkDir_trace_cases env _ fs)

theorem runDeploy_not_deployed (env u1 u2 : ToolEnv) (file : String) (fs : FS)
    (post : PostDeploy) (e : TfError)
    (h : (deploy env file fs).result = .error e) :
    (runDeploy env u1 u2 file fs post).result = some (.error e) ∧
    (runDeploy env u1 u2 file fs post).armed = false ∧
    (runDeploy env u1 u2 file fs post).trace = (deploy env file fs).trace := by
  unfold runDeploy
  split
  · next e' dfs dt heq =>
      rw [heq] at h
      simp only [Except.error.injEq] at h
      simp [heq, h]
  · next outs dfs dt heq =>
      rw [heq] at h
      simp at h

theorem result_error_of_isOk_false {α : Type} (r : Except TfError α)
    (h : r.isOk = false) : ∃ e, r = .error e := by
  cases r with
  | error e => exact ⟨e, rfl⟩
  | ok a => simp [Except.isOk, Except.toBool] at h

theorem undeploy_ok_of_mem (env : ToolEnv) (file cfile srcDir : String)
    (fs : FS) (hp : env.probe = some true)
    (hc : env.canonical file = some cfile)
    (hpar : env.parent cfile = some srcDir)
    (hmem : workPath fs.tmpRoot srcDir ∈ fs.dirs)
    (hdes : env.destroyRes = some true) :
    undeploy env file fs = ⟨.ok (), fs, [.probe, .canon, .destroy]⟩ := by
  unfold undeploy ensureTerraformInstalled
  split
  · next heq =>
      rw [hp] at heq
      simp at heq
  · split
    · next heq =>
        rw [hc] at heq
        simp at heq
    · next cfile' heq =>
        rw [hc] at heq
        injection heq with h'
        subst h'
        split
        · next heq2 =>
            rw [hpar] at heq2
            simp at heq2
        · next srcDir' heq2 =>
            rw [hpar] at heq2
            injection heq2 with h2
            subst h2
            rw [prepareWorkDir_mem_eq env srcDir fs hmem]
            unfold undeployAfterPrep
            rw [hdes]
            rfl

theorem runDeploy_deployed_traces (env u1 u2 : ToolEnv) (file : String)
    (fs : FS) (outs : List (String × String)) (dfs : FS) (dt : List Ev)
    (h : deploy env file fs = ⟨.ok outs, dfs, dt⟩) :
    (runDeploy env u1 u2 file fs .signalThenDrop).trace =
        dt ++ (undeploy u2 file dfs).trace ∧
    (runDeploy env u1 u2 file fs .panicUnwind).trace =
        dt ++ (undeploy u1 file dfs).trace ++
          (undeploy u2 file (undeploy u1 file dfs).fs).trace := by
  unfold runDeploy
  rw [h]
  exact ⟨rfl, rfl⟩

/-- Sixteen characters the lower-hex encoding can produce: the decimal
digits followed by the first six lowercase letters. -/
def hexAlphabet : List Char :=
  ['0', '1', '2', '3', '4', '5', '6', '7'] ++
    ['8', '9', 'a', 'b', 'c', 'd', 'e', 'f']

theorem wordBE_lt (w : Nat) : ∀ b ∈ wordBE w, b < 256 := by
  intro b hb
  simp only [wordBE, List.mem_cons, List.not_mem_nil, or_false] at hb
  rcases hb with rfl | rfl | rfl | rfl <;> exact Nat.mod_lt _ (by norm_num)

theorem sha256_bytes_lt (msg : List Nat) : ∀ b ∈ sha256 msg, b < 256 := by
  have hfold : ∀ (ws : List Nat),
      ∀ b ∈ ws.foldr (fun w acc => wordBE w ++ acc) [], b < 256 := by
    intro ws
    induction ws with
    | nil => intro b hb; simp at hb
    | cons w rest ih =>
        intro b hb
        rcases List.mem_append.mp hb with hw | hw
        · exact wordBE_lt w b hw
        · exact ih b hw
  intro b hb
  unfold sha256 digestBytes at hb
  exact hfold _ b hb

theorem mem_hexDigit (n : Nat) (h : n < 16) : hexDigit n ∈ hexAlphabet := by
  interval_cases n <;> decide

theorem hexOfBytes_all_hex (bs : List Nat) (h : ∀ b ∈ bs, b < 256) :
    ((hexOfBytes bs).data).all (fun c => decide (c ∈ hexAlphabet)) = true := by
  induction bs with
  | nil => rfl
  | cons b rest ih =>
      have hb : b < 256 := h b (List.mem_cons_self ..)
      have hd : (hexOfBytes (b :: rest)).data =
          byteHex b ++ (hexOfBytes rest).data := rfl
      have h3 := ih (fun x hx => h x (List.mem_cons_of_mem _ hx))
      rw [hd, List.all_append, h3]
      simp [byteHex, mem_hexDigit (b / 16) (by omega), mem_hexDigit (b % 16) (by omega)]

theorem deployAfterPrep_fs (env : ToolEnv) (p : PrepOut) :
    (deployAfterPrep env p).fs = p.fs := by
  unfold deployAfterPrep
  repeat' split
  all_goals rfl

theorem undeployAfterPrep_fs (env : ToolEnv) (p : PrepOut) :
    (undeployAfterPrep env p).fs = p.fs := by
  unfold undeployAfterPrep
  repeat' split
  all_goals rfl

theorem deploy_dirs_mono (env : ToolEnv) (file : String) (fs : FS) :
    fs.dirs ⊆ (deploy env file fs).fs.dirs := by
  unfold deploy
  split
  · exact fun a ha => ha
  · split
    · exact fun a ha => ha
    · split
      · exact fun a ha => ha
      · rw [deployAfterPrep_fs]
        exact prepareWorkDir_dirs_mono env _ fs

theorem undeploy_dirs_mono (env : ToolEnv) (file : String) (fs : FS) :
    fs.dirs ⊆ (undeploy env file fs).fs.dirs := by
  unfold undeploy
  split
  · exact fun a ha => ha
  · split
    · exact fun a ha => ha
    · split
      · exact fun a ha => ha
      · rw [undeployAfterPrep_fs]
        exact prepareWorkDir_dirs_mono env _ fs

/-! ## Claims -/

/-- Claim C4: for every well-formed top-level JSON map, the decode loop
keeps exactly the entries whose wrapper carries a `value` field, producing
the string verbatim when the wrapped value is a JSON string and its
structural JSON text otherwise; entries whose wrapper lacks a `value` field
are omitted; a payload that fails to parse yields an error. -/
theorem claim_c4_output_decoder :
    (∀ (raw : List (String × Json)) (k s : String),
        (k, s) ∈ decodeOutputs raw ↔
          ∃ v, (k, v) ∈ raw ∧
            ∃ inner, jsonGet v "value" = some inner ∧ s = stringify inner) ∧
    decodeRaw (some [("foo", Json.obj [("value", Json.str "bar")])]) =
        .ok [("foo", "bar")] ∧
    decodeRaw (some [("n", Json.obj [("value", Json.num 42)])]) =
        .ok [("n", "42")] ∧
    decodeRaw (some [("x", Json.obj [])]) = .ok [] ∧
    decodeRaw none = .error .outputDecode := by
  refine ⟨?_, ?_, ?_, ?_, rfl⟩
  · intro raw k s
    constructor
    · intro h
      rcases List.mem_filterMap.mp h with ⟨kv, hmem, hf⟩
      rcases Option.map_eq_some'.mp hf with ⟨inner, hg, heq⟩
      rcases kv with ⟨k', v⟩
      cases heq
      exact ⟨v, hmem, inner, hg, rfl⟩
    · rintro ⟨v, hmem, inner, hg, hs⟩
      exact List.mem_filterMap.mpr ⟨(k, v), hmem, by simp [hg, hs]⟩
  · simp [decodeRaw, decodeOutputs, jsonGet, lookupKey, stringify,
      Json.isString, Json.asStr]
  · have h42 : stringify (Json.num 42) = "42" := by
      simp [stringify, Json.isString, Json.render]
      rfl
    simp [decodeRaw, decodeOutputs, jsonGet, lookupKey, h42]
  · simp [decodeRaw, decodeOutputs, jsonGet, lookupKey]

/-- Claim C10: the `as_str().unwrap()` in the decode loop runs only under
the `is_string()` guard, so the loop never panics: the panic-explicit loop
agrees with the total one on every well-formed map. -/
theorem claim_c10_decode_loop_total (raw : List (String × Json)) :
    decodeOutputsChecked raw = some (decodeOutputs raw) := by
  induction raw with
  | nil => rfl
  | cons kv rest ih =>
      unfold decodeOutputsChecked
      cases hg : jsonGet kv.2 "value" with
      | none => simpa [decodeOutputs, List.filterMap_cons, hg] using ih
      | some inner =>
          simp [decodeOutputs, List.filterMap_cons, hg, stringifyChecked_eq, ih]

/-- Claim C9 counterexample: with verbosity on, the capturing invocation
does not follow the suppressed/inherited stderr policy — its stderr is
piped, not inherited. -/
theorem claim_c9_counterexample :
    ¬ (outputInvocationCfg true).err = specStderrPolicy true := by decide

/-- Claim C9 amended: when stdout must be parsed, stdout is captured for
both verbosity settings; the non-capturing invocations follow the
suppressed/inherited stderr policy, but the capturing invocation pipes
stderr for both verbosity settings instead of following that policy. -/
theorem claim_c9_capture_output (debug : Bool) :
    (outputInvocationCfg debug).out = .piped ∧
    (outputInvocationCfg debug).err = .piped ∧
    (statusInvocationCfg debug).err = specStderrPolicy debug := by
  cases debug <;> exact ⟨rfl, rfl, rfl⟩

/-- Claim C3: a deploy whose `apply` step exits unsuccessfully returns an
error, the teardown guard and panic hook are never armed, and no `destroy`
invocation is made by the guaranteed-teardown path in that execution. -/
theorem claim_c3_apply_failure_no_teardown (env u1 u2 : ToolEnv) (file : String)
    (fs : FS) (post : PostDeploy) (h : env.applyRes = some false) :
    (∃ e, (deploy env file fs).result = .error e) ∧
    (runDeploy env u1 u2 file fs post).armed = false ∧
    countDestroy (runDeploy env u1 u2 file fs post).trace = 0 := by
  obtain ⟨e, he⟩ := result_error_of_isOk_false _ (deploy_apply_false env file fs h)
  obtain ⟨hres, harm, htr⟩ := runDeploy_not_deployed env u1 u2 file fs post e he
  exact ⟨⟨e, he⟩, harm, htr ▸ deploy_no_destroy env file fs⟩

/-- Witness for claim C3 at a concrete environment whose `apply` exits
nonzero. -/
theorem claim_c3_witness :
    (∃ e, (deploy applyFailEnv "/cfg/main.tf" fs0).result = .error e) ∧
    (runDeploy applyFailEnv okEnv okEnv "/cfg/main.tf" fs0
        .signalThenDrop).armed = false ∧
    countDestroy (runDeploy applyFailEnv okEnv okEnv "/cfg/main.tf" fs0
        .signalThenDrop).trace = 0 :=
  claim_c3_apply_failure_no_teardown applyFailEnv okEnv okEnv "/cfg/main.tf"
    fs0 .signalThenDrop rfl

/-- Claim C5: workspace preparation is idempotent: when a first `prepare`
with source directory `srcDir` succeeds with working directory `w`, a second
`prepare` on the resulting filesystem returns the same `w`, leaves the
filesystem unchanged, performs no copy, and the copy step ran at most once
in the first call. -/
theorem claim_c5_prepare_idempotent (env1 env2 : ToolEnv) (srcDir : String)
    (fs : FS) (w : String)
    (h : (prepareWorkDir env1 srcDir fs).result = .ok w) :
    (prepareWorkDir env2 srcDir (prepareWorkDir env1 srcDir fs).fs).result =
        .ok w ∧
    (prepareWorkDir env2 srcDir (prepareWorkDir env1 srcDir fs).fs).fs =
        (prepareWorkDir env1 srcDir fs).fs ∧
    (prepareWorkDir env2 srcDir (prepareWorkDir env1 srcDir fs).fs).trace = [] ∧
    (prepareWorkDir env1 srcDir fs).trace.count Ev.copy ≤ 1 := by
  obtain ⟨hw, hmem⟩ := prepareWorkDir_ok_mem env1 srcDir fs w h
  have htmp := prepareWorkDir_tmpRoot env1 srcDir fs
  have h2 := prepareWorkDir_mem_eq env2 srcDir (prepareWorkDir env1 srcDir fs).fs
    (by rw [htmp]; exact hmem)
  rw [h2]
  refine ⟨?_, rfl, rfl, prepareWorkDir_count_copy env1 srcDir fs⟩
  rw [htmp, ← hw]

/-- Witness for claim C5 at a fresh filesystem: the first call copies, the
second reuses. -/
theorem claim_c5_witness :
    (prepareWorkDir okEnv "/cfg" (prepareWorkDir okEnv "/cfg" fs0).fs).result =
        .ok (workPath "/tmp" "/cfg") ∧
    (prepareWorkDir okEnv "/cfg" (prepareWorkDir okEnv "/cfg" fs0).fs).fs =
        (prepareWorkDir okEnv "/cfg" fs0).fs ∧
    (prepareWorkDir okEnv "/cfg" (prepareWorkDir okEnv "/cfg" fs0).fs).trace = [] ∧
    (prepareWorkDir okEnv "/cfg" fs0).trace.count Ev.copy ≤ 1 :=
  claim_c5_prepare_idempotent okEnv okEnv "/cfg" fs0 (workPath "/tmp" "/cfg") rfl

/-- Claim C6: when the version probe fails (to launch, or with nonzero
exit), both `deploy` and `undeploy` return an error having performed no path
canonicalization, no workspace mutation and no subcommand invocation: the
filesystem is unchanged and the whole trace is the probe alone. -/
theorem claim_c6_preflight_short_circuit (env : ToolEnv) (file : String)
    (fs : FS) (h : env.probe ≠ some true) :
    (deploy env file fs).result.isOk = false ∧
    (deploy env file fs).fs = fs ∧
    (deploy env file fs).trace = [Ev.probe] ∧
    (undeploy env file fs).result.isOk = false ∧
    (undeploy env file fs).fs = fs ∧
    (undeploy env file fs).trace = [Ev.probe] := by
  rcases hp : env.probe with _ | b
  · simp [deploy, undeploy, ensureTerraformInstalled, hp, Except.isOk,
      Except.toBool]
  · cases b
    · simp [deploy, undeploy, ensureTerraformInstalled, hp, Except.isOk,
        Except.toBool]
    · exact absurd hp h

/-- Witness for claim C6 at an environment whose probe fails to launch. -/
theorem claim_c6_witness :
    (deploy probeFailEnv "/cfg/main.tf" fs0).result.isOk = false ∧
    (deploy probeFailEnv "/cfg/main.tf" fs0).fs = fs0 ∧
    (deploy probeFailEnv "/cfg/main.tf" fs0).trace = [Ev.probe] ∧
    (undeploy probeFailEnv "/cfg/main.tf" fs0).result.isOk = false ∧
    (undeploy probeFailEnv "/cfg/main.tf" fs0).fs = fs0 ∧
    (undeploy probeFailEnv "/cfg/main.tf" fs0).trace = [Ev.probe] :=
  claim_c6_preflight_short_circuit probeFailEnv "/cfg/main.tf" fs0 (by decide)

/-- Claim C7: when `init` exits nonzero, `deploy` returns an error
immediately: no `apply`, no `output` and no `destroy` appear in its trace,
and the teardown guard is never armed, so no teardown is scheduled in that
execution. -/
theorem claim_c7_init_failure (env u1 u2 : ToolEnv) (file : String) (fs : FS)
    (post : PostDeploy) (h : env.initRes = some false) :
    (deploy env file fs).result.isOk = false ∧
    Ev.apply ∉ (deploy env file fs).trace ∧
    Ev.output ∉ (deploy env file fs).trace ∧
    Ev.destroy ∉ (deploy env file fs).trace ∧
    (runDeploy env u1 u2 file fs post).armed = false ∧
    countDestroy (runDeploy env u1 u2 file fs post).trace = 0 := by
  obtain ⟨hok, hap, hout, hdes⟩ := deploy_init_false env file fs h
  obtain ⟨e, he⟩ := result_error_of_isOk_false _ hok
  obtain ⟨hres, harm, htr⟩ := runDeploy_not_deployed env u1 u2 file fs post e he
  exact ⟨hok, hap, hout, hdes, harm, htr ▸ deploy_no_destroy env file fs⟩

/-- Witness for claim C7 at a concrete environment whose `init` exits
nonzero. -/
theorem claim_c7_witness :
    (deploy initFailEnv "/cfg/main.tf" fs0).result.isOk = false ∧
    Ev.apply ∉ (deploy initFailEnv "/cfg/main.tf" fs0).trace ∧
    Ev.output ∉ (deploy initFailEnv "/cfg/main.tf" fs0).trace ∧
    Ev.destroy ∉ (deploy initFailEnv "/cfg/main.tf" fs0).trace ∧
    (runDeploy initFailEnv okEnv okEnv "/cfg/main.tf" fs0
        .signalThenDrop).armed = false ∧
    countDestroy (runDeploy initFailEnv okEnv okEnv "/cfg/main.tf" fs0
        .signalThenDrop).trace = 0 :=
  claim_c7_init_failure initFailEnv okEnv okEnv "/cfg/main.tf" fs0
    .signalThenDrop rfl

set_option maxRecDepth 100000 in
/-- Claim C1 fails on the code: after a successful deploy, the normal
signal-then-drop path performs one `destroy`, but a panic raised once the
guard and panic hook are armed (for example the post-`recv` `println!`
panicking after a termination signal arrived) makes the panic hook run
`undeploy` and then the unwinding drop of `DestroyGuard` run `undeploy`
again: two `destroy` subprocess invocations in one execution, with no
one-shot gate anywhere in the code. -/
theorem claim_c1_panic_double_destroy :
    countDestroy (runDeploy okEnv okEnv okEnv "/cfg/main.tf" fs0
        .signalThenDrop).trace = 1 ∧
    countDestroy (runDeploy okEnv okEnv okEnv "/cfg/main.tf" fs0
        .panicUnwind).trace = 2 := by
  have hd : deploy okEnv "/cfg/main.tf" fs0 =
      ⟨.ok [], ⟨"/tmp", [workPath "/tmp" "/cfg"]⟩,
        [Ev.probe, Ev.canon, Ev.copy, Ev.init, Ev.apply, Ev.output]⟩ := rfl
  have hu : undeploy okEnv "/cfg/main.tf"
        (⟨"/tmp", [workPath "/tmp" "/cfg"]⟩ : FS) =
      ⟨.ok (), ⟨"/tmp", [workPath "/tmp" "/cfg"]⟩,
        [.probe, .canon, .destroy]⟩ :=
    undeploy_ok_of_mem okEnv "/cfg/main.tf" "/cfg/main.tf" "/cfg"
      ⟨"/tmp", [workPath "/tmp" "/cfg"]⟩ rfl rfl rfl
      (List.mem_singleton_self _) rfl
  obtain ⟨h1, h2⟩ := runDeploy_deployed_traces okEnv okEnv okEnv
    "/cfg/main.tf" fs0 [] ⟨"/tmp", [workPath "/tmp" "/cfg"]⟩
    [Ev.probe, Ev.canon, Ev.copy, Ev.init, Ev.apply, Ev.output] hd
  have hufs : (undeploy okEnv "/cfg/main.tf"
      (⟨"/tmp", [workPath "/tmp" "/cfg"]⟩ : FS)).fs =
        (⟨"/tmp", [workPath "/tmp" "/cfg"]⟩ : FS) := by rw [hu]
  constructor
  · rw [countDestroy, h1, hu]
    decide
  · rw [countDestroy, h2, hufs, hu]
    decide

/-- Claim C2 fails on the code: when the captured `output -json` stdout does
not parse, `deploy` returns the decode error and `run_deploy` propagates it
with `?` before the `DestroyGuard` or the panic hook exist, so the
guaranteed-teardown path is never armed and no `destroy` is ever invoked,
on every post-deploy path. -/
theorem claim_c2_decode_error_no_teardown (post : PostDeploy) :
    (runDeploy badJsonEnv okEnv okEnv "/cfg/main.tf" fs0 post).result =
        some (.error .outputDecode) ∧
    (runDeploy badJsonEnv okEnv okEnv "/cfg/main.tf" fs0 post).armed = false ∧
    countDestroy (runDeploy badJsonEnv okEnv okEnv "/cfg/main.tf" fs0
        post).trace = 0 := by
  cases post <;> exact ⟨rfl, rfl, rfl⟩

/-- Claim C8: the prepared working directory is the system temp root joined
with the tool namespace joined with the lowercase hex SHA-256 of the
canonicalized source directory path; every character of the encoding is a
lowercase hex digit; the directory is created (copied) exactly when it does
not exist and reused untouched when it does; and neither `deploy` nor
`undeploy` ever removes a directory. -/
theorem claim_c8_work_dir_location :
    (∀ tmpRoot srcDir, workPath tmpRoot srcDir =
        specWorkDirLocation tmpRoot srcDir) ∧
    (∀ msg : List Nat,
        ((hexOfBytes (sha256 msg)).data).all
          (fun c => decide (c ∈ hexAlphabet)) = true) ∧
    (∀ (env : ToolEnv) (srcDir : String) (fs : FS),
        workPath fs.tmpRoot srcDir ∈ fs.dirs →
          prepareWorkDir env srcDir fs =
            ⟨.ok (workPath fs.tmpRoot srcDir), fs, []⟩) ∧
    (∀ (env : ToolEnv) (srcDir : String) (fs : FS),
        workPath fs.tmpRoot srcDir ∉ fs.dirs →
          (prepareWorkDir env srcDir fs).trace = [Ev.copy]) ∧
    (∀ (env : ToolEnv) (file : String) (fs : FS),
        fs.dirs ⊆ (deploy env file fs).fs.dirs) ∧
    (∀ (env : ToolEnv) (file : String) (fs : FS),
        fs.dirs ⊆ (undeploy env file fs).fs.dirs) := by
  refine ⟨fun _ _ => rfl, ?_, ?_, ?_, deploy_dirs_mono, undeploy_dirs_mono⟩
  · exact fun msg => hexOfBytes_all_hex _ (sha256_bytes_lt msg)
  · exact fun env srcDir fs h => prepareWorkDir_mem_eq env srcDir fs h
  · intro env srcDir fs h
    unfold prepareWorkDir
    rw [if_neg h]
    split <;> rfl

/-- Witness for claim C8: on a fresh filesystem the copy runs, and on the
populated one the directory is reused untouched. -/
theorem claim_c8_witness :
    (prepareWorkDir okEnv "/cfg" fs0).trace = [Ev.copy] ∧
    prepareWorkDir okEnv "/cfg" (prepareWorkDir okEnv "/cfg" fs0).fs =
      ⟨.ok (workPath "/tmp" "/cfg"), (prepareWorkDir okEnv "/cfg" fs0).fs, []⟩ :=
  ⟨claim_c8_work_dir_location.2.2.2.1 okEnv "/cfg" fs0 (by simp [fs0]),
   claim_c8_work_dir_location.2.2.1 okEnv "/cfg"
     (prepareWorkDir okEnv "/cfg" fs0).fs (by rw [prepareWorkDir_tmpRoot]; exact
       (prepareWorkDir_ok_mem okEnv "/cfg" fs0 (workPath "/tmp" "/cfg") rfl).2)⟩

end Atar
